import Mathlib

/-
Verification development for the Swat-Chat backend (src/Backend/backend.py).

The repository is a small HTTP backend: a startup bootstrap that fetches and
loads a reference PDF, a keyword-constrained external search wrapper over an
academic-paper index, and four stateless request handlers.  The definitions
below are shallow embeddings of those pieces.  External collaborators that are
not part of the repository (the HTTP framework, the search client library, the
datetime library, the PDF loader, the validation layer) appear either as
oracle parameters or as definitions whose doc comments say they are modelled
from the spec.
-/

-- ---------------------------------------------------------------------------
-- Errors (exceptions are embedded as `Except Err`; an error value carries the
-- exception message).
-- ---------------------------------------------------------------------------

abbrev Err := String

-- ---------------------------------------------------------------------------
-- Datetimes.  `datetime.utcnow()` values are modelled as a record of calendar
-- and clock fields; `isoformat` below is the embedding of the library's
-- ISO-8601 formatting used at backend.py:126 and backend.py:96.
-- ---------------------------------------------------------------------------

structure DateTime where
  year : Nat
  month : Nat
  day : Nat
  hour : Nat
  minute : Nat
  second : Nat
  microsecond : Nat
deriving DecidableEq

structure Date where
  year : Nat
  month : Nat
  day : Nat
deriving DecidableEq

/-- `datetime.date()`: drop the clock fields (backend.py:96). -/
def DateTime.date (t : DateTime) : Date :=
  ⟨t.year, t.month, t.day⟩

/-- The character for decimal digit `d` (for `d ≤ 9`). -/
def digitChar10 (d : Nat) : Char :=
  Char.ofNat (48 + d)

/-- Two-digit zero-padded decimal rendering (`%02d`). -/
def pad2 (n : Nat) : List Char :=
  [digitChar10 (n / 10), digitChar10 (n % 10)]

/-- Four-digit zero-padded decimal rendering (`%04d`). -/
def pad4 (n : Nat) : List Char :=
  [digitChar10 (n / 1000), digitChar10 (n / 100 % 10), digitChar10 (n / 10 % 10),
   digitChar10 (n % 10)]

/-- Six-digit zero-padded decimal rendering (`%06d`). -/
def pad6 (n : Nat) : List Char :=
  [digitChar10 (n / 100000), digitChar10 (n / 10000 % 10), digitChar10 (n / 1000 % 10),
   digitChar10 (n / 100 % 10), digitChar10 (n / 10 % 10), digitChar10 (n % 10)]

/-- Modelled from the spec: `date.isoformat()` of the external datetime
library renders `YYYY-MM-DD` ("publication date as an ISO calendar date"). -/
def Date.isoformat (d : Date) : String :=
  ⟨pad4 d.year ++ '-' :: (pad2 d.month ++ '-' :: pad2 d.day)⟩

/-- Modelled from the spec: `datetime.isoformat()` of the external datetime
library renders `YYYY-MM-DDTHH:MM:SS` followed by `.ffffff` exactly when the
microsecond field is nonzero ("an ISO-8601 UTC timestamp string"). -/
def DateTime.isoformat (t : DateTime) : String :=
  ⟨pad4 t.year ++ '-' :: (pad2 t.month ++ '-' :: (pad2 t.day ++ 'T' ::
    (pad2 t.hour ++ ':' :: (pad2 t.minute ++ ':' ::
      (pad2 t.second ++ (if t.microsecond == 0 then [] else '.' :: pad6 t.microsecond))))))⟩

/-- Field ranges of a real datetime value (what `datetime.utcnow()` returns). -/
def DateTime.Valid (t : DateTime) : Prop :=
  1 ≤ t.year ∧ t.year ≤ 9999 ∧ 1 ≤ t.month ∧ t.month ≤ 12 ∧ 1 ≤ t.day ∧ t.day ≤ 31 ∧
    t.hour ≤ 23 ∧ t.minute ≤ 59 ∧ t.second ≤ 59 ∧ t.microsecond ≤ 999999

instance (t : DateTime) : Decidable t.Valid := by
  unfold DateTime.Valid
  infer_instance

/-- Mixed-radix encoding of a datetime; on `Valid` datetimes it orders values
exactly as the instants they denote (all lower fields stay below their radix). -/
def DateTime.key (t : DateTime) : Nat :=
  (((((t.year * 13 + t.month) * 32 + t.day) * 24 + t.hour) * 60 + t.minute) * 60 + t.second)
      * 1000000 + t.microsecond

/-- Instant order on datetimes. -/
def DateTime.le (a b : DateTime) : Prop :=
  a.key ≤ b.key

instance (a b : DateTime) : Decidable (DateTime.le a b) := by
  unfold DateTime.le
  infer_instance

-- ---------------------------------------------------------------------------
-- A checker for the timestamp strings the service emits: parse the canonical
-- `YYYY-MM-DDTHH:MM:SS[.ffffff]` form back into a datetime.  This is the
-- spec-side reading of "a valid ISO-8601 UTC instant".
-- ---------------------------------------------------------------------------

/-- Decimal value of an ASCII digit character. -/
def digitVal (c : Char) : Option Nat :=
  if 48 ≤ c.toNat ∧ c.toNat ≤ 57 then some (c.toNat - 48) else none

/-- Read exactly two digits. -/
def parse2 : List Char → Option (Nat × List Char)
  | a :: b :: rest =>
    match digitVal a, digitVal b with
    | some x, some y => some (10 * x + y, rest)
    | _, _ => none
  | _ => none

/-- Read exactly four digits. -/
def parse4 : List Char → Option (Nat × List Char)
  | a :: b :: c :: d :: rest =>
    match digitVal a, digitVal b, digitVal c, digitVal d with
    | some x, some y, some z, some w => some (1000 * x + 100 * y + 10 * z + w, rest)
    | _, _, _, _ => none
  | _ => none

/-- Read exactly six digits. -/
def parse6 : List Char → Option (Nat × List Char)
  | a :: b :: c :: d :: e :: f :: rest =>
    match digitVal a, digitVal b, digitVal c, digitVal d, digitVal e, digitVal f with
    | some u, some v, some w, some x, some y, some z =>
      some (100000 * u + 10000 * v + 1000 * w + 100 * x + 10 * y + z, rest)
    | _, _, _, _, _, _ => none
  | _ => none

/-- Read the optional microsecond fraction that must end the string. -/
def parseFraction : List Char → Option Nat
  | [] => some 0
  | '.' :: rest =>
    match parse6 rest with
    | some (u, []) => some u
    | _ => none
  | _ => none

/-- Read a canonical `YYYY-MM-DDTHH:MM:SS[.ffffff]` timestamp. -/
def parseISO8601 (s : String) : Option DateTime :=
  match parse4 s.data with
  | some (y, '-' :: r1) =>
    match parse2 r1 with
    | some (mo, '-' :: r2) =>
      match parse2 r2 with
      | some (d, 'T' :: r3) =>
        match parse2 r3 with
        | some (h, ':' :: r4) =>
          match parse2 r4 with
          | some (mi, ':' :: r5) =>
            match parse2 r5 with
            | some (sec, r6) =>
              match parseFraction r6 with
              | some usec => some ⟨y, mo, d, h, mi, sec, usec⟩
              | none => none
            | none => none
          | _ => none
        | _ => none
      | _ => none
    | _ => none
  | _ => none

/-- A string is a valid ISO-8601 UTC instant when it reads back as a datetime
whose fields are in range. -/
def isValidISO8601UTC (s : String) : Bool :=
  match parseISO8601 s with
  | some t => decide t.Valid
  | none => false

/-- The instant denoted by `s2` is not earlier than the one denoted by `s1`. -/
def notEarlierISO (s1 s2 : String) : Prop :=
  ∃ a b, parseISO8601 s1 = some a ∧ parseISO8601 s2 = some b ∧ DateTime.le a b

-- ---------------------------------------------------------------------------
-- Request and response models (backend.py:59-66) and the chat endpoint
-- (backend.py:106-127).
-- ---------------------------------------------------------------------------

structure ChatRequest where
  query : String
deriving DecidableEq

structure ChatResponse where
  answer : String
  sources : List String
  timestamp : String
deriving DecidableEq

/-- The constant answer built at backend.py:117-121. -/
def placeholder_answer : String :=
  "This is a placeholder response from Swat Chat. The RAG pipeline will retrieve relevant research from arXiv as the primary source and ground it using the SWaT Operation Manual."

/-- The `/chat` handler (backend.py:106-127); `now` is the value the external
clock (`datetime.utcnow()`) returns during the call. -/
def chat_endpoint (now : DateTime) (request : ChatRequest) : ChatResponse :=
  ⟨placeholder_answer,
   ["arXiv (primary)", "SWaT Operation Manual (secondary)"],
   now.isoformat⟩

-- ---------------------------------------------------------------------------
-- arXiv search adapter (backend.py:72-100).
-- ---------------------------------------------------------------------------

/-- A paper as yielded by the external index. -/
structure Paper where
  title : String
  summary : String
  published : DateTime
  categories : List String
deriving DecidableEq

/-- A projected search result record (backend.py:93-98). -/
structure SearchRecord where
  title : String
  summary : String
  published : String
  categories : List String
deriving DecidableEq

/-- The projection applied to each paper inside the loop at backend.py:92-98:
title kept, summary sliced to its first 400 characters, publication date
rendered as an ISO calendar date, category labels kept. -/
def recordOf (p : Paper) : SearchRecord :=
  ⟨p.title, ⟨p.summary.data.take 400⟩, (p.published.date).isoformat, p.categories⟩

/-- The accumulation loop at backend.py:91-98: start from the empty list and
append one projected record per yielded paper, in order. -/
def projectLoop (papers : List Paper) : List SearchRecord :=
  papers.foldl (fun results paper => results ++ [recordOf paper]) []

/-- The first fixed conjunct of the constrained query (backend.py:79). -/
def domainClause : String :=
  "(ti:\"SWaT\" OR abs:\"SWaT\" OR abs:\"Secure Water Treatment\")"

/-- The second fixed conjunct of the constrained query (backend.py:80-81). -/
def keywordClause : String :=
  "(abs:\"cyber physical\" OR abs:\"industrial control\" OR abs:\"ICS\" OR abs:\"water treatment\")"

/-- The query template built at backend.py:78-83, as the adjacent string
literals of the source concatenate. -/
def constrained_query (query : String) : String :=
  "(ti:\"SWaT\" OR abs:\"SWaT\" OR abs:\"Secure Water Treatment\") "
    ++ "AND (abs:\"cyber physical\" OR abs:\"industrial control\" "
    ++ "OR abs:\"ICS\" OR abs:\"water treatment\") "
    ++ "AND (" ++ query ++ ")"

/-- Modelled from the spec: the external academic-search index
(`arxiv.Search(...).results()`, not part of this repository) yields the papers
matching the query string, "capped at max_results"; a transport or service
error surfaces as an exception.  `fetchRaw` is the index's matching stream. -/
def arxivSearchResults (fetchRaw : String → Except Err (List Paper)) (query : String)
    (maxResults : Nat) : Except Err (List Paper) :=
  match fetchRaw query with
  | Except.error e => Except.error e
  | Except.ok papers => Except.ok (papers.take maxResults)

/-- `search_arxiv_swat` (backend.py:72-100): build the constrained query, make
one call to the external index (there is no retry, so the call log is the
single constrained query), and project the yielded papers.  The second
component is the list of query strings sent to the index. -/
def search_arxiv_swat (fetchRaw : String → Except Err (List Paper)) (query : String)
    (maxResults : Nat) : Except Err (List SearchRecord) × List String :=
  match arxivSearchResults fetchRaw (constrained_query query) maxResults with
  | Except.error e => (Except.error e, [constrained_query query])
  | Except.ok papers => (Except.ok (projectLoop papers), [constrained_query query])

structure ArxivSearchResponse where
  query : String
  primary_source : String
  results : List SearchRecord
deriving DecidableEq

/-- The `/arxiv-search` handler (backend.py:133-140): forward the raw query to
`search_arxiv_swat` with the default cap of 3 and echo the query back; an
exception propagates (no handler wraps the call). -/
def arxiv_search (fetchRaw : String → Except Err (List Paper))
    (request : ChatRequest) : Except Err ArxivSearchResponse :=
  match (search_arxiv_swat fetchRaw request.query 3).1 with
  | Except.error e => Except.error e
  | Except.ok papers => Except.ok ⟨request.query, "arXiv", papers⟩

-- ---------------------------------------------------------------------------
-- Top-level boolean structure of a query expression.
-- Modelled from the spec: the external index consumes "a boolean query
-- string"; its grammar (not part of this repository) combines clauses with
-- the infix connectives ` AND ` and ` OR `, groups with parentheses and
-- treats double-quoted phrases as literals.  `scanTop` extracts the top-level
-- operand/connective structure of an expression: connectives count only at
-- parenthesis depth zero and outside quotes.
-- ---------------------------------------------------------------------------

/-- A top-level connective. -/
inductive Tok where
  | conj
  | disj
deriving DecidableEq

/-- The double-quote character. -/
def quoteChar : Char :=
  Char.ofNat 34

def opAndChars : List Char :=
  [' ', 'A', 'N', 'D', ' ']

def opOrChars : List Char :=
  [' ', 'O', 'R', ' ']

/-- Push a character onto the current (first) operand of a scan result. -/
def consSeg (c : Char) (r : List Char × List (List Char) × List Tok) :
    List Char × List (List Char) × List Tok :=
  (c :: r.1, r.2.1, r.2.2)

/-- Scan an expression, splitting it at the depth-zero, unquoted occurrences
of ` AND ` and ` OR `.  The first argument counts characters of an already
matched connective still to be skipped; then parenthesis depth; then whether
the scan is inside a quoted phrase.  Returns the current operand, the later
operands and the connectives between them. -/
def scanTop : Nat → Nat → Bool → List Char → List Char × List (List Char) × List Tok
  | _, _, _, [] => ([], [], [])
  | Nat.succ k, d, iq, _ :: rest => scanTop k d iq rest
  | 0, d, iq, c :: rest =>
    if d == 0 && !iq && opAndChars.isPrefixOf (c :: rest) then
      let r := scanTop 4 0 false rest
      ([], r.1 :: r.2.1, Tok.conj :: r.2.2)
    else if d == 0 && !iq && opOrChars.isPrefixOf (c :: rest) then
      let r := scanTop 3 0 false rest
      ([], r.1 :: r.2.1, Tok.disj :: r.2.2)
    else
      consSeg c
        (scanTop 0
          (if iq then d else if c == '(' then d + 1 else if c == ')' then d - 1 else d)
          (if c == quoteChar then !iq else iq) rest)

/-- Top-level scan of a whole expression. -/
def topScan (e : String) : List Char × List (List Char) × List Tok :=
  scanTop 0 0 false e.data

/-- The top-level operands of an expression. -/
def topSegs (e : String) : List (List Char) :=
  (topScan e).1 :: (topScan e).2.1

/-- The top-level connectives of an expression. -/
def topToks (e : String) : List Tok :=
  (topScan e).2.2

/-- The expression is a conjunction whose conjuncts include the fixed domain
clause and the fixed keyword clause: every top-level connective is AND and
both fixed clauses occur among the top-level operands. -/
def isDomainConstrainedConjunction (e : String) : Prop :=
  (∀ t ∈ topToks e, t = Tok.conj) ∧
    domainClause.data ∈ topSegs e ∧ keywordClause.data ∈ topSegs e

instance (e : String) : Decidable (isDomainConstrainedConjunction e) := by
  unfold isDomainConstrainedConjunction
  infer_instance

/-- The characters of the constrained-query template that precede the
caller-supplied query. -/
def fixedHead : List Char :=
  (domainClause ++ " AND " ++ keywordClause ++ " AND (").data

-- ---------------------------------------------------------------------------
-- Startup document bootstrap (backend.py:35-53) and diagnostics endpoints
-- (backend.py:146-156).
-- ---------------------------------------------------------------------------

/-- The local persistent state the bootstrap touches: whether the manual file
exists at its fixed path, and its bytes when it does. -/
structure FileSys where
  pdfExists : Bool
  pdfBytes : Option (List Nat)
deriving DecidableEq

/-- `download_swat_manual` (backend.py:35-44): when the file already exists do
nothing; otherwise perform the remote fetch (`remote` is its outcome — an
error covers both transport failures and `raise_for_status`) and persist the
bytes.  The second component of a successful result counts the fetches
performed. -/
def download_swat_manual (fs : FileSys) (remote : Except Err (List Nat)) :
    Except Err (FileSys × Nat) :=
  if fs.pdfExists then Except.ok (fs, 0)
  else
    match remote with
    | Except.error e => Except.error e
    | Except.ok bytes => Except.ok (⟨true, some bytes⟩, 1)

/-- The module-level try/except at backend.py:46-53: download, then load the
file into page records (`loader` embeds `PyPDFLoader(...).load()`); any
exception in either step degrades to the empty document list.  Returns the
resulting file state and `swat_docs`. -/
def startupBootstrap (fs : FileSys) (remote : Except Err (List Nat))
    (loader : FileSys → Except Err (List String)) : FileSys × List String :=
  match download_swat_manual fs remote with
  | Except.error _ => (fs, [])
  | Except.ok (fs2, _) =>
    match loader fs2 with
    | Except.error _ => (fs2, [])
    | Except.ok docs => (fs2, docs)

structure KbInfoResponse where
  documents_loaded : Nat
  secondary_source : String
  source_location : String
deriving DecidableEq

/-- The `/kb-info` handler (backend.py:150-156). -/
def kb_info (swat_docs : List String) : KbInfoResponse :=
  ⟨swat_docs.length, "SWaT Operation Manual", "GitHub (public repo)"⟩

structure StatusResponse where
  status : String
deriving DecidableEq

/-- The `/health` handler (backend.py:146-148). -/
def health_check : StatusResponse :=
  ⟨"ok"⟩

-- ---------------------------------------------------------------------------
-- Request validation (backend.py:59-60).
-- ---------------------------------------------------------------------------

/-- A raw request body: the `query` attribute is present or absent. -/
structure RawChatBody where
  query : Option String
deriving DecidableEq

inductive ValidationErr where
  | missingQuery
deriving DecidableEq

/-- Modelled from the spec: the validation the external model layer performs
for `ChatRequest` (backend.py:59-60) — a "single required attribute, free-text
query string. No validation beyond presence; unbounded length." -/
def validateChatRequest (body : RawChatBody) : Except ValidationErr ChatRequest :=
  match body.query with
  | none => Except.error ValidationErr.missingQuery
  | some q => Except.ok ⟨q⟩

-- ---------------------------------------------------------------------------
-- The request handlers as transitions on the process-wide state (backend.py
-- module state: `swat_docs` and the manual file).
-- ---------------------------------------------------------------------------

structure ServerState where
  swat_docs : List String
  fileSys : FileSys

inductive ApiCall where
  | chat (now : DateTime) (req : ChatRequest)
  | arxivSearch (fetchRaw : String → Except Err (List Paper)) (req : ChatRequest)
  | health
  | kbInfo

inductive ApiResult where
  | chatR (r : ChatResponse)
  | arxivR (r : Except Err ArxivSearchResponse)
  | healthR (r : StatusResponse)
  | kbR (r : KbInfoResponse)

/-- Dispatch one request: each handler reads the state at most (only
`/kb-info` does) and none assigns to `swat_docs` or writes the manual file, so
the state component is returned unchanged — the shallow embedding of handlers
that contain no assignment to module state (backend.py:106-156). -/
def handleCall (s : ServerState) : ApiCall → ServerState × ApiResult
  | ApiCall.chat now req => (s, ApiResult.chatR (chat_endpoint now req))
  | ApiCall.arxivSearch fetchRaw req => (s, ApiResult.arxivR (arxiv_search fetchRaw req))
  | ApiCall.health => (s, ApiResult.healthR health_check)
  | ApiCall.kbInfo => (s, ApiResult.kbR (kb_info s.swat_docs))

/-- Run a sequence of requests, threading the process state. -/
def runCalls (s : ServerState) : List ApiCall → ServerState
  | [] => s
  | c :: cs => runCalls (handleCall s c).1 cs

-- ---------------------------------------------------------------------------
-- Concrete sample data used by witnesses.
-- ---------------------------------------------------------------------------

def paperA : Paper :=
  ⟨"Attacks on SWaT", "First summary", ⟨2020, 1, 2, 3, 4, 5, 6⟩, ["cs.CR"]⟩

def paperB : Paper :=
  ⟨"ICS anomaly detection", "Second summary", ⟨2021, 11, 30, 23, 59, 59, 0⟩, ["cs.CR", "eess.SY"]⟩

def paperC : Paper :=
  ⟨"Water treatment testbeds", "Third summary", ⟨2019, 6, 15, 0, 0, 0, 999999⟩, ["cs.SE"]⟩

def paperD : Paper :=
  ⟨"Beyond the cap", "Fourth summary", ⟨2022, 2, 2, 2, 2, 2, 2⟩, ["cs.CR"]⟩

def t1c : DateTime :=
  ⟨2025, 3, 14, 9, 26, 53, 0⟩

def t2c : DateTime :=
  ⟨2025, 3, 14, 9, 26, 53, 589793⟩

/-- The whole behaviour `/chat` exhibits on two calls observed at clock values
`t1` and `t2`: constant answer, the same fixed two-element source list, only
the timestamp can differ, the timestamp is a valid ISO-8601 UTC instant, and
with a monotone clock the second timestamp denotes an instant not earlier than
the first. -/
def chatBehavior (t1 t2 : DateTime) (q1 q2 : String) : Prop :=
  (chat_endpoint t1 ⟨q1⟩).answer = (chat_endpoint t2 ⟨q2⟩).answer ∧
  (chat_endpoint t1 ⟨q1⟩).sources = (chat_endpoint t2 ⟨q2⟩).sources ∧
  (chat_endpoint t1 ⟨q1⟩).sources.length = 2 ∧
  ((chat_endpoint t1 ⟨q1⟩).timestamp = (chat_endpoint t2 ⟨q2⟩).timestamp →
    chat_endpoint t1 ⟨q1⟩ = chat_endpoint t2 ⟨q2⟩) ∧
  (t1.Valid → isValidISO8601UTC (chat_endpoint t1 ⟨q1⟩).timestamp = true) ∧
  (t1.Valid → t2.Valid → DateTime.le t1 t2 →
    notEarlierISO (chat_endpoint t1 ⟨q1⟩).timestamp (chat_endpoint t2 ⟨q2⟩).timestamp)

-- ---------------------------------------------------------------------------
-- Helper lemmas.
-- ---------------------------------------------------------------------------

set_option maxHeartbeats 1000000

theorem data_append_str (a b : String) : (a ++ b).data = a.data ++ b.data := by
  cases a
  cases b
  rfl

/-- Scanning the fixed template head from depth zero yields the two fixed
clauses as the first two operands, two AND connectives, and continues at depth
one into whatever follows the final opening parenthesis. -/
theorem scanTop_fixedHead (t : List Char) :
    scanTop 0 0 false (fixedHead ++ t) =
      (domainClause.data,
       keywordClause.data :: ('(' :: (scanTop 0 1 false t).1) :: (scanTop 0 1 false t).2.1,
       Tok.conj :: Tok.conj :: (scanTop 0 1 false t).2.2) := rfl

/-- At depth one, characters that are not parentheses never produce a
top-level split: the scan swallows them into the current operand. -/
theorem scanTop_plain (l : List Char) (iq : Bool)
    (h : ∀ c ∈ l, c ≠ '(' ∧ c ≠ ')') :
    scanTop 0 1 iq (l ++ [')']) = (l ++ [')'], [], []) := by
  induction l generalizing iq with
  | nil => cases iq <;> rfl
  | cons c l ih =>
    have hc := h c (by simp)
    have hl : ∀ x ∈ l, x ≠ '(' ∧ x ≠ ')' := fun x hx => h x (by simp [hx])
    have hp : (c == '(') = false := beq_eq_false_iff_ne.mpr hc.1
    have hq : (c == ')') = false := beq_eq_false_iff_ne.mpr hc.2
    have ihh : ∀ iq2 : Bool, scanTop 0 1 iq2 (l ++ [')']) = (l ++ [')'], [], []) :=
      fun iq2 => ih iq2 hl
    show scanTop 0 1 iq ( c :: (l ++ [')'])) = _
    simp [scanTop, consSeg, hp, hq, ihh]

/-- The characters of the constructed query: the fixed head, the caller's
query, a closing parenthesis. -/
theorem constrained_query_data (q : String) :
    (constrained_query q).data = fixedHead ++ (q.data ++ [')']) := by
  have h1 : ("(ti:\"SWaT\" OR abs:\"SWaT\" OR abs:\"Secure Water Treatment\") "
      ++ "AND (abs:\"cyber physical\" OR abs:\"industrial control\" "
      ++ "OR abs:\"ICS\" OR abs:\"water treatment\") "
      ++ "AND (" : String) = domainClause ++ " AND " ++ keywordClause ++ " AND (" := by decide
  show ((("(ti:\"SWaT\" OR abs:\"SWaT\" OR abs:\"Secure Water Treatment\") "
      ++ "AND (abs:\"cyber physical\" OR abs:\"industrial control\" "
      ++ "OR abs:\"ICS\" OR abs:\"water treatment\") "
      ++ "AND (") ++ q) ++ ")").data = fixedHead ++ (q.data ++ [')'])
  rw [h1]
  rw [data_append_str, data_append_str]
  rw [show (")" : String).data = [')'] from rfl]
  rw [List.append_assoc]
  rfl

theorem digitVal_digitChar10 (d : Nat) (h : d ≤ 9) :
    digitVal (digitChar10 d) = some d := by
  interval_cases d <;> rfl

theorem parse2_pad2 (n : Nat) (h : n ≤ 99) (rest : List Char) :
    parse2 (pad2 n ++ rest) = some (n, rest) := by
  have h1 : n / 10 ≤ 9 := by omega
  have h2 : n % 10 ≤ 9 := by omega
  have e : 10 * (n / 10) + n % 10 = n := by omega
  simp [pad2, parse2, digitVal_digitChar10 _ h1, digitVal_digitChar10 _ h2, e]

theorem parse4_pad4 (n : Nat) (h : n ≤ 9999) (rest : List Char) :
    parse4 (pad4 n ++ rest) = some (n, rest) := by
  have h1 : n / 1000 ≤ 9 := by omega
  have h2 : n / 100 % 10 ≤ 9 := by omega
  have h3 : n / 10 % 10 ≤ 9 := by omega
  have h4 : n % 10 ≤ 9 := by omega
  have e : 1000 * (n / 1000) + 100 * (n / 100 % 10) + 10 * (n / 10 % 10) + n % 10 = n := by
    omega
  simp [pad4, parse4, digitVal_digitChar10 _ h1, digitVal_digitChar10 _ h2,
    digitVal_digitChar10 _ h3, digitVal_digitChar10 _ h4, e]

theorem parse6_pad6 (n : Nat) (h : n ≤ 999999) (rest : List Char) :
    parse6 (pad6 n ++ rest) = some (n, rest) := by
  have h1 : n / 100000 ≤ 9 := by omega
  have h2 : n / 10000 % 10 ≤ 9 := by omega
  have h3 : n / 1000 % 10 ≤ 9 := by omega
  have h4 : n / 100 % 10 ≤ 9 := by omega
  have h5 : n / 10 % 10 ≤ 9 := by omega
  have h6 : n % 10 ≤ 9 := by omega
  have e : 100000 * (n / 100000) + 10000 * (n / 10000 % 10) + 1000 * (n / 1000 % 10)
      + 100 * (n / 100 % 10) + 10 * (n / 10 % 10) + n % 10 = n := by omega
  simp [pad6, parse6, digitVal_digitChar10 _ h1, digitVal_digitChar10 _ h2,
    digitVal_digitChar10 _ h3, digitVal_digitChar10 _ h4,
    digitVal_digitChar10 _ h5, digitVal_digitChar10 _ h6, e]

/-- Formatting a valid datetime and reading the string back returns the same
datetime: the canonical ISO-8601 form determines the instant. -/
theorem parseISO8601_isoformat (t : DateTime) (h : t.Valid) :
    parseISO8601 t.isoformat = some t := by
  obtain ⟨y, mo, d, hh, mi, s, u⟩ := t
  obtain ⟨hy1, hy2, hm1, hm2, hd1, hd2, hhh, hmi, hs, hu⟩ := h
  dsimp only at hy1 hy2 hm1 hm2 hd1 hd2 hhh hmi hs hu
  unfold DateTime.isoformat parseISO8601
  simp only [parse4_pad4 y (by omega), parse2_pad2 mo (by omega),
    parse2_pad2 d (by omega), parse2_pad2 hh (by omega),
    parse2_pad2 mi (by omega), parse2_pad2 s (by omega)]
  by_cases hu0 : u = 0
  · subst hu0
    rfl
  · have hb : (u == 0) = false := by simp [hu0]
    have h6 : parse6 (pad6 u) = some (u, []) := by
      simpa using parse6_pad6 u (by omega) []
    rw [hb]
    simp [parseFraction, h6]

theorem foldl_append_map {α β : Type} (f : α → β) (l : List α) (acc : List β) :
    l.foldl (fun r a => r ++ [f a]) acc = acc ++ l.map f := by
  induction l generalizing acc with
  | nil => simp
  | cons a l ih => simp [ih]

-- ---------------------------------------------------------------------------
-- Claim theorems.
-- ---------------------------------------------------------------------------

/-- Claim C1: for every query string `q`, including the empty string, the
expression `search_arxiv_swat` sends to the external index is exactly the
fixed boolean template with `q` inserted verbatim as the content of the third
conjunct, and that single expression is all that is sent. -/
theorem arxiv_query_template_exact (q : String) :
    constrained_query q =
      "(ti:\"SWaT\" OR abs:\"SWaT\" OR abs:\"Secure Water Treatment\") AND (abs:\"cyber physical\" OR abs:\"industrial control\" OR abs:\"ICS\" OR abs:\"water treatment\") AND (" ++ q ++ ")" ∧
    ∀ (fetchRaw : String → Except Err (List Paper)) (n : Nat),
      (search_arxiv_swat fetchRaw q n).2 = [constrained_query q] := by
  constructor
  · exact congrArg (fun s => s ++ q ++ ")") (by decide)
  · intro fetchRaw n
    unfold search_arxiv_swat
    cases arxivSearchResults fetchRaw (constrained_query q) n <;> rfl

/-- Claim C2 fails as stated: for the concrete query `x) OR (y` the
constructed expression, read by the index's boolean grammar, is not a
conjunction whose conjuncts include the two fixed clauses — the query's
unbalanced parentheses close the third conjunct and introduce a top-level OR,
so the search is not constrained to the domain. -/
theorem arxiv_query_injection_escapes_template :
    ¬ isDomainConstrainedConjunction (constrained_query "x) OR (y") := by decide

/-- Claim C2 (amended): for every query containing no parenthesis characters,
the constructed expression parses as a conjunction whose top-level conjuncts
include the fixed domain clause and the fixed keyword clause, so such
searches are hard-constrained to the domain. -/
theorem arxiv_query_paren_free_domain_conjunction (q : String)
    (h : ∀ c ∈ q.data, c ≠ '(' ∧ c ≠ ')') :
    isDomainConstrainedConjunction (constrained_query q) := by
  have hscan : topScan (constrained_query q) =
      (domainClause.data, [keywordClause.data, '(' :: (q.data ++ [')'])],
       [Tok.conj, Tok.conj]) := by
    unfold topScan
    rw [constrained_query_data q, scanTop_fixedHead, scanTop_plain q.data false h]
  unfold isDomainConstrainedConjunction topToks topSegs
  rw [hscan]
  refine ⟨?_, ?_, ?_⟩ <;> simp

/-- Witness for the amended C2 at the concrete query `attack detection`. -/
theorem arxiv_query_paren_free_domain_conjunction_witness :
    (∀ c ∈ ("attack detection" : String).data, c ≠ '(' ∧ c ≠ ')') ∧
    isDomainConstrainedConjunction (constrained_query "attack detection") :=
  ⟨by decide, arxiv_query_paren_free_domain_conjunction "attack detection" (by decide)⟩

/-- Claim C3: for every sequence of papers yielded by the external index the
loop returns the element-wise projection in the same order, and each
projected record keeps the title and categories, truncates the summary to its
first 400 characters (a prefix of the full summary, of length at most 400),
and renders the publication date as its ISO calendar-date string. -/
theorem search_results_projection :
    (∀ papers : List Paper, projectLoop papers = papers.map recordOf) ∧
    (∀ p : Paper,
      (recordOf p).title = p.title ∧
      (recordOf p).summary.length ≤ 400 ∧
      (∃ rest, p.summary.data = (recordOf p).summary.data ++ rest) ∧
      (recordOf p).published = (p.published.date).isoformat ∧
      (recordOf p).categories = p.categories) := by
  refine ⟨fun papers => by simp [projectLoop, foldl_append_map], fun p => ?_⟩
  refine ⟨rfl, ?_, ⟨p.summary.data.drop 400, ?_⟩, rfl, rfl⟩
  · show (p.summary.data.take 400).length ≤ 400
    simp [List.length_take]
  · exact (List.take_append_drop 400 p.summary.data).symm

/-- Claim C4: whenever a POST `/arxiv-search` request with body `{query: q}`
produces a response, the response echoes `q` exactly, names `arXiv` as the
primary source, and carries at most 3 results (the default cap, which the
endpoint never overrides). -/
theorem arxiv_search_endpoint_shape (fetchRaw : String → Except Err (List Paper))
    (q : String) (resp : ArxivSearchResponse)
    (h : arxiv_search fetchRaw ⟨q⟩ = Except.ok resp) :
    resp.query = q ∧ resp.primary_source = "arXiv" ∧ resp.results.length ≤ 3 := by
  unfold arxiv_search search_arxiv_swat arxivSearchResults at h
  cases hf : fetchRaw (constrained_query q) with
  | error e =>
    rw [hf] at h
    simp at h
  | ok papers =>
    rw [hf] at h
    simp at h
    subst h
    refine ⟨rfl, rfl, ?_⟩
    show (projectLoop (papers.take 3)).length ≤ 3
    rw [show projectLoop (papers.take 3) = (papers.take 3).map recordOf from by
      simp [projectLoop, foldl_append_map]]
    simp [List.length_take]

/-- Witness for C4: an index yielding four papers produces a capped,
query-echoing response. -/
theorem arxiv_search_endpoint_shape_witness :
    (arxiv_search (fun _ => Except.ok [paperA, paperB, paperC, paperD]) ⟨"anomaly"⟩ =
      Except.ok ⟨"anomaly", "arXiv", [recordOf paperA, recordOf paperB, recordOf paperC]⟩) ∧
    (ArxivSearchResponse.mk "anomaly" "arXiv"
        [recordOf paperA, recordOf paperB, recordOf paperC]).query = "anomaly" ∧
    (ArxivSearchResponse.mk "anomaly" "arXiv"
        [recordOf paperA, recordOf paperB, recordOf paperC]).primary_source = "arXiv" ∧
    (ArxivSearchResponse.mk "anomaly" "arXiv"
        [recordOf paperA, recordOf paperB, recordOf paperC]).results.length ≤ 3 :=
  ⟨rfl, arxiv_search_endpoint_shape
    (fun _ => Except.ok [paperA, paperB, paperC, paperD]) "anomaly" _ (by rfl)⟩

/-- Claim C5: the request-time search path makes exactly one external call
(no retry, no pagination), and an error raised by that call propagates
unchanged out of `search_arxiv_swat` and out of the `/arxiv-search` handler. -/
theorem arxiv_search_error_propagation (fetchRaw : String → Except Err (List Paper))
    (q : String) :
    (search_arxiv_swat fetchRaw q 3).2.length = 1 ∧
    (∀ e, fetchRaw (constrained_query q) = Except.error e →
      arxiv_search fetchRaw ⟨q⟩ = Except.error e) := by
  constructor
  · unfold search_arxiv_swat
    cases arxivSearchResults fetchRaw (constrained_query q) 3 <;> rfl
  · intro e he
    simp [arxiv_search, search_arxiv_swat, arxivSearchResults, he]

/-- Witness for C5: a failing index call surfaces as the same error from the
endpoint. -/
theorem arxiv_search_error_propagation_witness :
    ((fun _ : String => (Except.error "boom" : Except Err (List Paper)))
        (constrained_query "x") = Except.error "boom") ∧
    arxiv_search (fun _ => Except.error "boom") ⟨"x"⟩ = Except.error "boom" :=
  ⟨rfl, (arxiv_search_error_propagation (fun _ => Except.error "boom") "x").2 "boom" rfl⟩

/-- Claim C6: any exception during the startup bootstrap is caught and leaves
an empty document list, so `/kb-info` reports `documents_loaded = 0`; on
success `documents_loaded` equals the number of loaded page records, positive
for a non-empty document. -/
theorem bootstrap_failure_degrades (fs : FileSys) (remote : Except Err (List Nat))
    (loader : FileSys → Except Err (List String)) :
    (∀ e, download_swat_manual fs remote = Except.error e →
      (kb_info (startupBootstrap fs remote loader).2).documents_loaded = 0) ∧
    (∀ fs2 n e, download_swat_manual fs remote = Except.ok (fs2, n) →
      loader fs2 = Except.error e →
      (kb_info (startupBootstrap fs remote loader).2).documents_loaded = 0) ∧
    (∀ fs2 n docs, download_swat_manual fs remote = Except.ok (fs2, n) →
      loader fs2 = Except.ok docs →
      (kb_info (startupBootstrap fs remote loader).2).documents_loaded = docs.length ∧
      (docs ≠ [] → 0 < (kb_info (startupBootstrap fs remote loader).2).documents_loaded)) := by
  refine ⟨?_, ?_, ?_⟩
  · intro e he
    simp [startupBootstrap, he, kb_info]
  · intro fs2 n e hd hl
    simp [startupBootstrap, hd, hl, kb_info]
  · intro fs2 n docs hd hl
    constructor
    · simp [startupBootstrap, hd, hl, kb_info]
    · intro hne
      simp [startupBootstrap, hd, hl, kb_info]
      exact List.length_pos.mpr hne

/-- Witness for C6: a failed fetch yields zero documents; a successful
bootstrap of a two-page document yields two. -/
theorem bootstrap_failure_degrades_witness :
    (download_swat_manual ⟨false, none⟩ (Except.error "net down") = Except.error "net down") ∧
    (kb_info (startupBootstrap ⟨false, none⟩ (Except.error "net down")
        (fun _ => Except.ok ["page1"])).2).documents_loaded = 0 ∧
    (download_swat_manual ⟨false, none⟩ (Except.ok [7]) = Except.ok (⟨true, some [7]⟩, 1)) ∧
    ((fun _ : FileSys => Except.ok (ε := Err) ["page1", "page2"]) ⟨true, some [7]⟩ =
      Except.ok ["page1", "page2"]) ∧
    (kb_info (startupBootstrap ⟨false, none⟩ (Except.ok [7])
        (fun _ => Except.ok ["page1", "page2"])).2).documents_loaded = 2 :=
  ⟨rfl,
   (bootstrap_failure_degrades ⟨false, none⟩ (Except.error "net down")
      (fun _ => Except.ok ["page1"])).1 "net down" rfl,
   rfl, rfl,
   ((bootstrap_failure_degrades ⟨false, none⟩ (Except.ok [7])
      (fun _ => Except.ok ["page1", "page2"])).2.2
     ⟨true, some [7]⟩ 1 ["page1", "page2"] rfl rfl).1⟩

/-- Claim C7: `download_swat_manual` checks existence before fetching — when
the file exists it performs no fetch and no write — and after any successful
invocation the file exists, so a second invocation fetches nothing and leaves
the file untouched: at most one fetch across the two runs, never a rewrite. -/
theorem download_manual_idempotent (fs fs2 : FileSys) (r1 r2 : Except Err (List Nat))
    (n : Nat) :
    (fs.pdfExists = true → download_swat_manual fs r1 = Except.ok (fs, 0)) ∧
    (download_swat_manual fs r1 = Except.ok (fs2, n) →
      n ≤ 1 ∧ fs2.pdfExists = true ∧ download_swat_manual fs2 r2 = Except.ok (fs2, 0)) := by
  constructor
  · intro h
    simp [download_swat_manual, h]
  · intro h
    by_cases hex : fs.pdfExists = true
    · simp [download_swat_manual, hex] at h
      obtain ⟨h1, h2⟩ := h
      subst h1
      constructor
      · omega
      · exact ⟨hex, by simp [download_swat_manual, hex]⟩
    · simp only [Bool.not_eq_true] at hex
      simp [download_swat_manual, hex] at h
      cases r1 with
      | error e => simp at h
      | ok bytes =>
        simp at h
        obtain ⟨h1, h2⟩ := h
        subst h1
        refine ⟨by omega, rfl, by simp [download_swat_manual]⟩

/-- Witness for C7: with the file present nothing is fetched; a fresh
environment fetches once and the second run leaves the state unchanged. -/
theorem download_manual_idempotent_witness :
    ((⟨true, some [1, 2]⟩ : FileSys).pdfExists = true ∧
      download_swat_manual ⟨true, some [1, 2]⟩ (Except.ok [9]) =
        Except.ok (⟨true, some [1, 2]⟩, 0)) ∧
    (download_swat_manual ⟨false, none⟩ (Except.ok [1, 2]) =
        Except.ok (⟨true, some [1, 2]⟩, 1) ∧
      1 ≤ 1 ∧ (⟨true, some [1, 2]⟩ : FileSys).pdfExists = true ∧
      download_swat_manual ⟨true, some [1, 2]⟩ (Except.error "later") =
        Except.ok (⟨true, some [1, 2]⟩, 0)) :=
  ⟨⟨rfl, (download_manual_idempotent ⟨true, some [1, 2]⟩ ⟨true, some [1, 2]⟩
      (Except.ok [9]) (Except.ok [9]) 0).1 rfl⟩,
   rfl,
   (download_manual_idempotent ⟨false, none⟩ ⟨true, some [1, 2]⟩ (Except.ok [1, 2])
      (Except.error "later") 1).2 rfl⟩

/-- Claim C8: two `/chat` calls with non-empty queries return the same
constant answer and the same two-element source list; only the timestamp can
differ, each timestamp is a valid ISO-8601 UTC instant, and with a monotone
clock the second call's timestamp denotes an instant not earlier than the
first call's. -/
theorem chat_constant_response (t1 t2 : DateTime) (q1 q2 : String)
    (h1 : q1 ≠ "") (h2 : q2 ≠ "") : chatBehavior t1 t2 q1 q2 := by
  unfold chatBehavior chat_endpoint
  refine ⟨rfl, rfl, rfl, ?_, ?_, ?_⟩
  · intro h
    show ChatResponse.mk _ _ _ = ChatResponse.mk _ _ _
    simp only at h
    rw [h]
  · intro hv
    show isValidISO8601UTC t1.isoformat = true
    unfold isValidISO8601UTC
    rw [parseISO8601_isoformat t1 hv]
    exact decide_eq_true hv
  · intro hv1 hv2 hle
    exact ⟨t1, t2, parseISO8601_isoformat t1 hv1, parseISO8601_isoformat t2 hv2, hle⟩

/-- Witness for C8 at two concrete clock readings half a millisecond apart. -/
theorem chat_constant_response_witness :
    ("swat attack" : String) ≠ "" ∧ ("sensor spoofing" : String) ≠ "" ∧
      chatBehavior t1c t2c "swat attack" "sensor spoofing" :=
  ⟨by decide, by decide,
   chat_constant_response t1c t2c "swat attack" "sensor spoofing" (by decide) (by decide)⟩

/-- Claim C9: a request body is rejected exactly when the required `query`
attribute is absent; any present query string, of any length, is accepted
unchanged with no further validation. -/
theorem chat_request_validation :
    (∀ q : String, validateChatRequest ⟨some q⟩ = Except.ok ⟨q⟩) ∧
    (∀ body : RawChatBody,
      validateChatRequest body = Except.error ValidationErr.missingQuery ↔
        body.query = none) := by
  constructor
  · intro q
    rfl
  · intro body
    obtain ⟨oq⟩ := body
    cases oq with
    | none => simp [validateChatRequest]
    | some q => simp [validateChatRequest]

/-- Claim C10: no request handler writes the loaded manual pages or the
persisted manual file — every handler returns the process state unchanged, any
sequence of requests leaves it unchanged, and `/kb-info` therefore reports the
same `documents_loaded` value throughout a process lifetime. -/
theorem handlers_preserve_state :
    (∀ (s : ServerState) (c : ApiCall), (handleCall s c).1 = s) ∧
    (∀ (s : ServerState) (cs : List ApiCall), runCalls s cs = s) ∧
    (∀ (s : ServerState) (cs : List ApiCall),
      (kb_info (runCalls s cs).swat_docs).documents_loaded =
        (kb_info s.swat_docs).documents_loaded) := by
  have hstep : ∀ (s : ServerState) (c : ApiCall), (handleCall s c).1 = s := by
    intro s c
    cases c <;> rfl
  have hrun : ∀ (cs : List ApiCall) (s : ServerState), runCalls s cs = s := by
    intro cs
    induction cs with
    | nil => intro s; rfl
    | cons c cs ih =>
      intro s
      show runCalls (handleCall s c).1 cs = s
      rw [hstep]
      exact ih s
  exact ⟨hstep, fun s cs => hrun cs s, fun s cs => by rw [hrun cs s]⟩
